import Mathlib

/-!
A shallow embedding of the homework status bot (`homework.py`, `exceptions.py`)
and proofs about its per-cycle behaviour.

JSON-decodable Python values are modelled by `PyVal`; the exception hierarchy
of the script (everything it can raise derives from `Exception`, except
`SystemExit`) is modelled by `PyError` together with `isExceptionSubclass`.
Each Python function of the script becomes a Lean function of the same name;
the network and the messaging API are oracles (`FetchOutcome`, `SendOutcome`)
supplied as explicit inputs.
-/

namespace HomeworkBot

/-- A JSON-decodable Python value: the values that can flow through the
script (API responses, homework records, `current_date`). -/
inductive PyVal where
  | none : PyVal
  | bool : Bool → PyVal
  | int : Int → PyVal
  | str : String → PyVal
  | list : List PyVal → PyVal
  | dict : List (String × PyVal) → PyVal

mutual

/-- Python `repr` of a value (as far as the script can observe it). -/
def pyRepr : PyVal → String
  | PyVal.none => "None"
  | PyVal.bool b => if b then "True" else "False"
  | PyVal.int n => toString n
  | PyVal.str s => "\x27" ++ s ++ "\x27"
  | PyVal.list xs => "[" ++ String.intercalate ", " (pyReprList xs) ++ "]"
  | PyVal.dict es => "\x7b" ++ String.intercalate ", " (pyReprEntries es) ++ "\x7d"

/-- `repr` of each element of a list. -/
def pyReprList : List PyVal → List String
  | [] => []
  | x :: xs => pyRepr x :: pyReprList xs

/-- `repr` of each entry of a dict. -/
def pyReprEntries : List (String × PyVal) → List String
  | [] => []
  | (k, v) :: es => ("\x27" ++ k ++ "\x27: " ++ pyRepr v) :: pyReprEntries es

end

/-- Python `str()` of a value, as used by f-string interpolation. -/
def pyStr : PyVal → String
  | PyVal.str s => s
  | v => pyRepr v

/-- Python truthiness of a value (`if homeworks:` and friends). -/
def pyTruthy : PyVal → Bool
  | PyVal.none => false
  | PyVal.bool b => b
  | PyVal.int n => n != 0
  | PyVal.str s => s != ""
  | PyVal.list xs => !xs.isEmpty
  | PyVal.dict es => !es.isEmpty

/-- Truthiness of an optional string, for variables holding `None` or a
string (`message` in `main`, the environment variables). -/
def optStrTruthy : Option String → Bool
  | Option.none => false
  | Option.some s => s != ""

/-- First-occurrence lookup in a dict's entry list. -/
def lookupEntry : List (String × PyVal) → String → Option PyVal
  | [], _ => Option.none
  | (k, v) :: es, key => if k = key then Option.some v else lookupEntry es key

/-- Python hashability: lists and dicts are unhashable. -/
def pyHashable : PyVal → Bool
  | PyVal.list _ => false
  | PyVal.dict _ => false
  | _ => true

/-- Python type name, used in `TypeError` messages. -/
def pyTypeName : PyVal → String
  | PyVal.none => "NoneType"
  | PyVal.bool _ => "bool"
  | PyVal.int _ => "int"
  | PyVal.str _ => "str"
  | PyVal.list _ => "list"
  | PyVal.dict _ => "dict"

/-- The exceptions the script can raise or observe. All of them derive from
`Exception` except `systemExit` (Python's `SystemExit` derives only from
`BaseException`). -/
inductive PyError where
  | typeError : String → PyError
  | keyError : String → PyError
  | indexError : String → PyError
  | jsonDecodeError : String → PyError
  | apiResponseError : String → PyError
  | tokenError : String → PyError
  | systemExit : Nat → PyError
deriving DecidableEq, Repr

/-- Whether an error is caught by `except Exception`. -/
def isExceptionSubclass : PyError → Bool
  | PyError.systemExit _ => false
  | _ => true

/-- Python `str()` of an exception instance. -/
def pyErrStr : PyError → String
  | PyError.typeError m => m
  | PyError.keyError k => "\x27" ++ k ++ "\x27"
  | PyError.indexError m => m
  | PyError.jsonDecodeError m => m
  | PyError.apiResponseError m => m
  | PyError.tokenError m => m
  | PyError.systemExit c => toString c

/-- Python `container[key]` subscripting with a string key. -/
def pyGetItem : PyVal → String → Except PyError PyVal
  | PyVal.dict es, key =>
    match lookupEntry es key with
    | Option.some v => Except.ok v
    | Option.none => Except.error (PyError.keyError key)
  | v, _ => Except.error
      (PyError.typeError (pyTypeName v ++ " object is not subscriptable"))

/-- Python `container[i]` subscripting with a non-negative integer index. -/
def pyIndex : PyVal → Nat → Except PyError PyVal
  | PyVal.list xs, i =>
    match xs.get? i with
    | Option.some x => Except.ok x
    | Option.none => Except.error (PyError.indexError "list index out of range")
  | v, _ => Except.error
      (PyError.typeError (pyTypeName v ++ " object is not subscriptable"))

/-- Whether `needle` starts the list `hay`. -/
def charsStartWith : List Char → List Char → Bool
  | [], _ => true
  | _ :: _, [] => false
  | a :: as, b :: bs => a == b && charsStartWith as bs

/-- Whether `needle` occurs contiguously inside `hay`. -/
def charsInfix (needle : List Char) : List Char → Bool
  | [] => needle.isEmpty
  | c :: rest => charsStartWith needle (c :: rest) || charsInfix needle rest

/-- Python `key in container` for a string key on the left. -/
def pyContains : PyVal → String → Except PyError Bool
  | PyVal.dict es, key => Except.ok (lookupEntry es key).isSome
  | PyVal.list xs, key =>
    Except.ok (xs.any fun v =>
      match v with
      | PyVal.str s => s == key
      | _ => false)
  | PyVal.str s, key => Except.ok (charsInfix key.toList s.toList)
  | v, _ => Except.error
      (PyError.typeError ("argument of type \x27" ++ pyTypeName v ++
        "\x27 is not iterable"))

/-- Python `dict.get(key, default)` on a value known to be a dict; on a
non-dict it would be an attribute error, modelled as a `TypeError`-like
failure (unreachable in the script). -/
def pyGet : PyVal → String → PyVal → Except PyError PyVal
  | PyVal.dict es, key, default =>
    Except.ok ((lookupEntry es key).getD default)
  | v, _, _ => Except.error
      (PyError.typeError (pyTypeName v ++ " object has no attribute \x27get\x27"))

/-- `HOMEWORK_VERDICTS` from `homework.py`. -/
def HOMEWORK_VERDICTS : List (String × String) :=
  [("approved", "Работа проверена: ревьюеру всё понравилось. Ура!"),
   ("reviewing", "Работа взята на проверку ревьюером."),
   ("rejected", "Работа проверена: у ревьюера есть замечания.")]

/-- `RETRY_PERIOD` from `homework.py`. -/
def RETRY_PERIOD : Nat := 600

/-- `LAST_MONTH` from `homework.py`. -/
def LAST_MONTH : Int := 30 * 24 * 60 * 60

/-- Python `status in HOMEWORK_VERDICTS`: membership of an arbitrary value
among the keys of the verdict dict. An unhashable value raises `TypeError`;
non-string hashable values are simply not keys. -/
def pyInVerdicts (status : PyVal) : Except PyError Bool :=
  if pyHashable status then
    match status with
    | PyVal.str s => Except.ok (HOMEWORK_VERDICTS.lookup s).isSome
    | _ => Except.ok false
  else
    Except.error (PyError.typeError ("unhashable type: \x27" ++
      pyTypeName status ++ "\x27"))

/-- Python `HOMEWORK_VERDICTS[status]`. -/
def verdictOf (status : PyVal) : Except PyError String :=
  if pyHashable status then
    match status with
    | PyVal.str s =>
      match HOMEWORK_VERDICTS.lookup s with
      | Option.some v => Except.ok v
      | Option.none => Except.error (PyError.keyError s)
    | _ => Except.error (PyError.keyError (pyStr status))
  else
    Except.error (PyError.typeError ("unhashable type: \x27" ++
      pyTypeName status ++ "\x27"))

/-- Log levels of the `logging` module as used by the script. -/
inductive LogLevel where
  | debug | info | warning | error | critical
deriving DecidableEq, Repr

/-- One emitted log line. -/
structure LogEvent where
  level : LogLevel
  msg : String
deriving DecidableEq, Repr

/-- `check_response` from `homework.py`: shape validation of the decoded
API response. -/
def check_response (response : PyVal) : Except PyError Unit :=
  match response with
  | PyVal.dict es =>
    match lookupEntry es "homeworks" with
    | Option.none =>
      Except.error
        (PyError.typeError "В ответе API отсутствует ключ \"homeworks\"")
    | Option.some (PyVal.list _) => Except.ok ()
    | Option.some _ => Except.error
        (PyError.typeError "Домашние работы должны быть в формате списка")
  | _ => Except.error (PyError.typeError "Ответ API не является словарем")

/-- `parse_status` from `homework.py`: extract the status of a homework
record and build the notification message. The `for key in (...)` loop
checks `status` first, then `homework_name`. -/
def parse_status (homework : PyVal) : Except PyError String :=
  match pyContains homework "status" with
  | Except.error e => Except.error e
  | Except.ok hasStatus =>
    if hasStatus then
      match pyContains homework "homework_name" with
      | Except.error e => Except.error e
      | Except.ok hasName =>
        if hasName then
          match pyGetItem homework "status" with
          | Except.error e => Except.error e
          | Except.ok status =>
            match pyGetItem homework "homework_name" with
            | Except.error e => Except.error e
            | Except.ok homework_name =>
              match pyInVerdicts status with
              | Except.error e => Except.error e
              | Except.ok inVerdicts =>
                if inVerdicts then
                  match verdictOf status with
                  | Except.error e => Except.error e
                  | Except.ok verdict =>
                    Except.ok ("Изменился статус проверки работы \"" ++
                      pyStr homework_name ++ "\". " ++ verdict)
                else
                  Except.error (PyError.apiResponseError
                    ("Неожиданный статус домашней работы: " ++ pyStr status))
        else
          Except.error (PyError.apiResponseError
            "Отсутствует ключ \"homework_name\" в домашней работе")
    else
      Except.error (PyError.apiResponseError
        "Отсутствует ключ \"status\" в домашней работе")

/-- What the network does for one `requests.get` call: either the request
raises a `RequestException` (carrying its text), or it completes with an
HTTP status code and a body whose JSON decoding either fails (left, with
the decode-error text) or yields a value (right). -/
inductive FetchOutcome where
  | requestException : String → FetchOutcome
  | completed : Nat → Sum String PyVal → FetchOutcome

/-- `get_api_answer` from `homework.py`. The HTTP exchange is supplied as
the `FetchOutcome` oracle; the function wraps transport failures and
non-200 statuses into `APIResponseError` and decodes the body on 200.
Returns the emitted log lines alongside the result. -/
def get_api_answer (_timestamp : PyVal) (outcome : FetchOutcome) :
    List LogEvent × Except PyError PyVal :=
  match outcome with
  | FetchOutcome.requestException err =>
    ([], Except.error (PyError.apiResponseError ("Ошибка запроса: " ++ err)))
  | FetchOutcome.completed code body =>
    let logs1 : List LogEvent :=
      [⟨LogLevel.info, "Сервис Яндекс Практикум.Домашка работает."⟩]
    if code ≠ 200 then
      (logs1, Except.error (PyError.apiResponseError
        ("Эндпоинт недоступен. Код ответа: " ++ toString code)))
    else
      let logs2 := logs1 ++ [⟨LogLevel.info, "Запрос выполнен успешно"⟩]
      match body with
      | Sum.inl decodeErr =>
        (logs2, Except.error (PyError.jsonDecodeError decodeErr))
      | Sum.inr v => (logs2, Except.ok v)

/-- What the messaging API does for one `bot.send_message` call: delivery,
or one of the two exception classes `send_message` catches. -/
inductive SendOutcome where
  | delivered
  | apiException : String → SendOutcome
  | requestException : String → SendOutcome

/-- `send_message` from `homework.py`: attempts delivery, catches
`ApiException` and `RequestException`, and reports success as a boolean.
Returns the emitted log lines alongside the result. -/
def send_message (message : String) (outcome : SendOutcome) :
    Bool × List LogEvent :=
  let attempt : LogEvent := ⟨LogLevel.info, "Отправка сообщения " ++ message⟩
  match outcome with
  | SendOutcome.delivered =>
    (true, [attempt,
      ⟨LogLevel.debug, "Бот отправил сообщение: \"" ++ message ++ "\""⟩])
  | SendOutcome.apiException e =>
    (false, [attempt, ⟨LogLevel.error, "Ошибка при отправке сообщения: " ++ e⟩])
  | SendOutcome.requestException e =>
    (false, [attempt, ⟨LogLevel.error, "Ошибка при отправке сообщения: " ++ e⟩])

/-- `check_tokens` from `homework.py`, applied to the three environment
values (`None` for an unset variable). Returns the emitted log lines
alongside the result. -/
def check_tokens (p t c : Option String) : List LogEvent × Except PyError Bool :=
  let tokens : List (String × Option String) :=
    [("PRACTICUM_TOKEN", p), ("TELEGRAM_TOKEN", t), ("TELEGRAM_CHAT_ID", c)]
  let missing_tokens := (tokens.filter fun kv => !optStrTruthy kv.2).map
    fun kv => kv.1
  if !missing_tokens.isEmpty then
    let error_message := "Отсутствуют обязательные переменные окружения: " ++
      String.intercalate ", " missing_tokens
    ([⟨LogLevel.critical, error_message⟩],
      Except.error (PyError.tokenError error_message))
  else ([], Except.ok true)

/-- The loop-local mutable state of `main`: the cursor `timestamp` and the
shared `message` variable (last formatted status / `None` / last delivered
error text). -/
structure LoopState where
  timestamp : PyVal
  message : Option String

/-- The initial state of `main`'s loop: cursor a month back, no message. -/
def initialState (now : Int) : LoopState :=
  ⟨PyVal.int (now - LAST_MONTH), Option.none⟩

/-- The external world of one cycle: the network's behaviour for the fetch,
and the messaging API's behaviour for the (at most one) status send and the
(at most one) error send. -/
structure CycleEnv where
  fetch : FetchOutcome
  sendStatus : SendOutcome
  sendError : SendOutcome

/-- Outcome of the `try` block of one loop iteration: normal completion
with the new state, or a raised error together with the state at the raise
point (assignments already executed persist). Both carry the trace of
`bot.send_message` calls (text, delivered) and the log lines. -/
inductive TryOutcome where
  | ok : LoopState → List (String × Bool) → List LogEvent → TryOutcome
  | err : PyError → LoopState → List (String × Bool) → List LogEvent → TryOutcome

/-- The right-hand side of `message = parse_status(homeworks[0]) if
homeworks else None` in `main`. -/
def extractMessage (homeworks : PyVal) : Except PyError (Option String) :=
  if pyTruthy homeworks then
    match pyIndex homeworks 0 with
    | Except.error e => Except.error e
    | Except.ok hw0 =>
      match parse_status hw0 with
      | Except.error e => Except.error e
      | Except.ok m => Except.ok (Option.some m)
  else Except.ok Option.none

/-- The `try` block of one iteration of `main`'s `while True` loop:
fetch, validate, extract, format, deliver, and on confirmed delivery
advance the cursor to `current_date` (default: unchanged). -/
def cycleTry (env : CycleEnv) (st : LoopState) : TryOutcome :=
  let fetched := get_api_answer st.timestamp env.fetch
  match fetched.2 with
  | Except.error e => TryOutcome.err e st [] fetched.1
  | Except.ok response =>
    match check_response response with
    | Except.error e => TryOutcome.err e st [] fetched.1
    | Except.ok _ =>
      match pyGetItem response "homeworks" with
      | Except.error e => TryOutcome.err e st [] fetched.1
      | Except.ok homeworks =>
        match extractMessage homeworks with
        | Except.error e => TryOutcome.err e st [] fetched.1
        | Except.ok message =>
          let st1 : LoopState := ⟨st.timestamp, message⟩
          if !optStrTruthy message then
            TryOutcome.ok st1 []
              (fetched.1 ++ [⟨LogLevel.debug, "Новых статусов нет"⟩])
          else
            let m := message.getD ""
            let sendRes := send_message m env.sendStatus
            if sendRes.1 then
              match pyGet response "current_date" st.timestamp with
              | Except.error e =>
                TryOutcome.err e st1 [(m, true)] (fetched.1 ++ sendRes.2)
              | Except.ok newTs =>
                TryOutcome.ok ⟨newTs, message⟩ [(m, true)]
                  (fetched.1 ++ sendRes.2)
            else
              TryOutcome.ok st1 [(m, false)] (fetched.1 ++ sendRes.2)

/-- Result of one full loop iteration: the new state, the trace of
`bot.send_message` calls, the log lines, and whether the `except` branch
ran. -/
structure CycleResult where
  state : LoopState
  sent : List (String × Bool)
  logs : List LogEvent
  errored : Bool

/-- The `except Exception` handler of `main`'s loop: log the failure and,
when the error text differs from the current `message`, attempt delivery;
only a successful delivery overwrites `message` with the error text. -/
def handleCycleError (env : CycleEnv) (e : PyError) (stE : LoopState)
    (sent : List (String × Bool)) (logs : List LogEvent) : CycleResult :=
  let error_message := pyErrStr e
  let logs1 := logs ++
    [⟨LogLevel.error, "Сбой в работе программы: " ++ error_message⟩]
  if stE.message ≠ Option.some error_message then
    let sendRes := send_message error_message env.sendError
    if sendRes.1 then
      ⟨⟨stE.timestamp, Option.some error_message⟩,
        sent ++ [(error_message, true)], logs1 ++ sendRes.2, true⟩
    else
      ⟨stE, sent ++ [(error_message, false)], logs1 ++ sendRes.2, true⟩
  else
    ⟨stE, sent, logs1, true⟩

/-- One full iteration of `main`'s loop (try body plus handler). -/
def runCycle (env : CycleEnv) (st : LoopState) : CycleResult :=
  match cycleTry env st with
  | TryOutcome.ok st' sent logs => ⟨st', sent, logs, false⟩
  | TryOutcome.err e stE sent logs => handleCycleError env e stE sent logs

/-- One full iteration under faithful `except Exception` semantics: an
error that is not an `Exception` subclass would escape the handler and
abort the loop. -/
def runCycleE (env : CycleEnv) (st : LoopState) : Except PyError CycleResult :=
  match cycleTry env st with
  | TryOutcome.ok st' sent logs => Except.ok ⟨st', sent, logs, false⟩
  | TryOutcome.err e stE sent logs =>
    if isExceptionSubclass e then
      Except.ok (handleCycleError env e stE sent logs)
    else
      Except.error e

/-- Iterating the loop over a list of cycle environments. -/
def runLoop : List CycleEnv → LoopState → LoopState
  | [], st => st
  | env :: rest, st => runLoop rest (runCycle env st).state

/-- Iterating the loop under faithful exception semantics. -/
def runLoopE : List CycleEnv → LoopState → Except PyError LoopState
  | [], st => Except.ok st
  | env :: rest, st =>
    match runCycleE env st with
    | Except.error e => Except.error e
    | Except.ok r => runLoopE rest r.state

/-- What `main` does before its loop: either the process exits with a
code, or the polling loop is entered; a non-`TokenError` failure of
`check_tokens` would propagate out of `main` uncaught. -/
inductive StartupResult where
  | exitCode : Nat → StartupResult
  | enterLoop : StartupResult
  | propagate : PyError → StartupResult
deriving DecidableEq, Repr

/-- The startup phase of `main`: run `check_tokens`, catch `TokenError`
with `sys.exit(1)`, otherwise enter the loop. Returns the emitted log
lines alongside the result. -/
def mainStartup (p t c : Option String) : List LogEvent × StartupResult :=
  let checked := check_tokens p t c
  match checked.2 with
  | Except.error (PyError.tokenError _) => (checked.1, StartupResult.exitCode 1)
  | Except.error e => (checked.1, StartupResult.propagate e)
  | Except.ok _ => (checked.1, StartupResult.enterLoop)

/-- Whether an error is of the `APIResponseError` kind. -/
def isAPIResponseErrorKind : PyError → Bool
  | PyError.apiResponseError _ => true
  | _ => false

/-- A starting state for concrete scenarios: cursor 500, no message. -/
def stBase : LoopState := ⟨PyVal.int 500, Option.none⟩

/-- A starting state whose last message is an error text. -/
def stAfterBoom : LoopState := ⟨PyVal.int 500, Option.some "boom"⟩

/-- A cycle in which the network request raises. -/
def envNetFail : CycleEnv :=
  ⟨FetchOutcome.requestException "boom", SendOutcome.delivered,
    SendOutcome.delivered⟩

/-- A response with one reviewing homework and `current_date` 1000. -/
def respDeliver : PyVal :=
  PyVal.dict
    [("homeworks", PyVal.list
        [PyVal.dict [("status", PyVal.str "reviewing"),
          ("homework_name", PyVal.str "HW1")]]),
     ("current_date", PyVal.int 1000)]

/-- A cycle that fetches `respDeliver` and delivers successfully. -/
def envDeliver : CycleEnv :=
  ⟨FetchOutcome.completed 200 (Sum.inr respDeliver), SendOutcome.delivered,
    SendOutcome.delivered⟩

/-- The formatted message for `respDeliver`'s homework. -/
def msgHW1 : String :=
  "Изменился статус проверки работы \"HW1\". Работа взята на проверку ревьюером."

/-- The state after `envDeliver` from `stBase`. -/
def stAfterDeliver : LoopState := ⟨PyVal.int 1000, Option.some msgHW1⟩

/-- The log lines of the `envDeliver` cycle. -/
def logsDeliver : List LogEvent :=
  [⟨LogLevel.info, "Сервис Яндекс Практикум.Домашка работает."⟩,
   ⟨LogLevel.info, "Запрос выполнен успешно"⟩,
   ⟨LogLevel.info, "Отправка сообщения " ++ msgHW1⟩,
   ⟨LogLevel.debug, "Бот отправил сообщение: \"" ++ msgHW1 ++ "\""⟩]

/-- A cycle that fetches an empty homework list. -/
def envEmptyResp : CycleEnv :=
  ⟨FetchOutcome.completed 200 (Sum.inr (PyVal.dict
      [("homeworks", PyVal.list [])])),
    SendOutcome.delivered, SendOutcome.delivered⟩

/-! ### Basic lemmas about the embedded functions -/

theorem get_api_answer_error_exc (ts : PyVal) (o : FetchOutcome) (e : PyError)
    (h : (get_api_answer ts o).2 = Except.error e) :
    isExceptionSubclass e = true := by
  cases o with
  | requestException err =>
    simp only [get_api_answer] at h
    cases h
    rfl
  | completed code body =>
    simp only [get_api_answer] at h
    split at h
    · cases h; rfl
    · cases body with
      | inl msg => cases h; rfl
      | inr v => cases h

theorem check_response_error_kind (r : PyVal) (e : PyError)
    (h : check_response r = Except.error e) : ∃ m, e = PyError.typeError m := by
  cases r with
  | dict es =>
    simp only [check_response] at h
    split at h
    · cases h; exact ⟨_, rfl⟩
    · cases h
    · cases h; exact ⟨_, rfl⟩
  | none => cases h; exact ⟨_, rfl⟩
  | bool b => cases h; exact ⟨_, rfl⟩
  | int n => cases h; exact ⟨_, rfl⟩
  | str s => cases h; exact ⟨_, rfl⟩
  | list xs => cases h; exact ⟨_, rfl⟩

theorem check_response_ok_iff (r : PyVal) :
    check_response r = Except.ok () ↔
      ∃ es xs, r = PyVal.dict es ∧
        lookupEntry es "homeworks" = Option.some (PyVal.list xs) := by
  constructor
  · intro h
    cases r with
    | dict es =>
      simp only [check_response] at h
      split at h
      · cases h
      · rename_i xs heq
        exact ⟨es, xs, rfl, heq⟩
      · cases h
    | none => cases h
    | bool b => cases h
    | int n => cases h
    | str s => cases h
    | list xs => cases h
  · rintro ⟨es, xs, rfl, hl⟩
    simp only [check_response, hl]

theorem pyGetItem_error_exc (v : PyVal) (k : String) (e : PyError)
    (h : pyGetItem v k = Except.error e) : isExceptionSubclass e = true := by
  cases v with
  | dict es =>
    simp only [pyGetItem] at h
    split at h
    · cases h
    · cases h; rfl
  | none => cases h; rfl
  | bool b => cases h; rfl
  | int n => cases h; rfl
  | str s => cases h; rfl
  | list xs => cases h; rfl

theorem pyIndex_error_exc (v : PyVal) (i : Nat) (e : PyError)
    (h : pyIndex v i = Except.error e) : isExceptionSubclass e = true := by
  cases v with
  | list xs =>
    simp only [pyIndex] at h
    split at h
    · cases h
    · cases h; rfl
  | none => cases h; rfl
  | bool b => cases h; rfl
  | int n => cases h; rfl
  | str s => cases h; rfl
  | dict es => cases h; rfl

theorem pyContains_error_exc (v : PyVal) (k : String) (e : PyError)
    (h : pyContains v k = Except.error e) : isExceptionSubclass e = true := by
  cases v with
  | none => cases h; rfl
  | bool b => cases h; rfl
  | int n => cases h; rfl
  | str s => cases h
  | list xs => cases h
  | dict es => cases h

theorem pyInVerdicts_error_exc (v : PyVal) (e : PyError)
    (h : pyInVerdicts v = Except.error e) : isExceptionSubclass e = true := by
  simp only [pyInVerdicts] at h
  split at h
  · split at h <;> cases h
  · cases h; rfl

theorem verdictOf_error_exc (v : PyVal) (e : PyError)
    (h : verdictOf v = Except.error e) : isExceptionSubclass e = true := by
  simp only [verdictOf] at h
  split at h
  · split at h
    · split at h
      · cases h
      · cases h; rfl
    · cases h; rfl
  · cases h; rfl

theorem parse_status_error_exc (hw : PyVal) (e : PyError)
    (h : parse_status hw = Except.error e) : isExceptionSubclass e = true := by
  simp only [parse_status] at h
  repeat' split at h
  all_goals first
    | (cases h; rfl)
    | (cases h; exact pyContains_error_exc _ _ _ (by assumption))
    | (cases h; exact pyGetItem_error_exc _ _ _ (by assumption))
    | (cases h; exact pyInVerdicts_error_exc _ _ (by assumption))
    | (cases h; exact verdictOf_error_exc _ _ (by assumption))
    | cases h

theorem extractMessage_error_exc (homeworks : PyVal) (e : PyError)
    (h : extractMessage homeworks = Except.error e) :
    isExceptionSubclass e = true := by
  simp only [extractMessage] at h
  split at h
  · split at h
    · cases h; exact pyIndex_error_exc _ _ _ (by assumption)
    · split at h
      · cases h; exact parse_status_error_exc _ _ (by assumption)
      · cases h
  · cases h

theorem extractMessage_none_inv (homeworks : PyVal)
    (h : extractMessage homeworks = Except.ok Option.none) :
    pyTruthy homeworks = false := by
  simp only [extractMessage] at h
  split at h
  · split at h
    · cases h
    · split at h
      · cases h
      · cases h
  · simp_all

theorem extractMessage_some_inv (homeworks : PyVal) (m : String)
    (h : extractMessage homeworks = Except.ok (Option.some m)) :
    pyTruthy homeworks = true ∧
      ∃ hw, pyIndex homeworks 0 = Except.ok hw ∧
        parse_status hw = Except.ok m := by
  simp only [extractMessage] at h
  split at h
  · split at h
    · cases h
    · split at h
      · cases h
      · cases h
        exact ⟨by assumption, _, by assumption, by assumption⟩
  · cases h

theorem pyGet_ok_of_check (response : PyVal) (u : Unit) (k : String) (d : PyVal)
    (h : check_response response = Except.ok u) :
    ∃ v, pyGet response k d = Except.ok v := by
  obtain ⟨es, xs, rfl, _⟩ :=
    (check_response_ok_iff response).mp (by cases u; exact h)
  exact ⟨_, rfl⟩

theorem cycleTry_err_inv (env : CycleEnv) (st : LoopState)
    (e : PyError) (stE : LoopState) (sent : List (String × Bool))
    (logs : List LogEvent)
    (h : cycleTry env st = TryOutcome.err e stE sent logs) :
    stE = st ∧ sent = [] ∧ isExceptionSubclass e = true := by
  simp only [cycleTry] at h
  split at h
  · cases h; exact ⟨rfl, rfl, get_api_answer_error_exc _ _ _ (by assumption)⟩
  · rename_i response hfetch
    split at h
    · cases h
      refine ⟨rfl, rfl, ?_⟩
      obtain ⟨m, rfl⟩ := check_response_error_kind _ _ (by assumption)
      rfl
    · rename_i u hcheck
      split at h
      · cases h; exact ⟨rfl, rfl, pyGetItem_error_exc _ _ _ (by assumption)⟩
      · rename_i homeworks hhws
        split at h
        · cases h
          exact ⟨rfl, rfl, extractMessage_error_exc _ _ (by assumption)⟩
        · rename_i msg hmsg
          split at h
          · cases h
          · rename_i htruthy
            split at h
            · rename_i hsendok
              split at h
              · rename_i e1 hget
                exfalso
                obtain ⟨v, hv⟩ :=
                  pyGet_ok_of_check response u "current_date"
                    st.timestamp hcheck
                rw [hv] at hget
                cases hget
              · cases h
            · cases h

theorem cycleTry_ok_inv (env : CycleEnv) (st : LoopState)
    (st' : LoopState) (sent : List (String × Bool)) (logs : List LogEvent)
    (h : cycleTry env st = TryOutcome.ok st' sent logs) :
    ∃ response homeworks,
      (get_api_answer st.timestamp env.fetch).2 = Except.ok response ∧
      check_response response = Except.ok () ∧
      pyGetItem response "homeworks" = Except.ok homeworks ∧
      ((∃ msg, extractMessage homeworks = Except.ok msg ∧
          optStrTruthy msg = false ∧ st' = ⟨st.timestamp, msg⟩ ∧ sent = []) ∨
       (∃ m, extractMessage homeworks = Except.ok (Option.some m) ∧
          optStrTruthy (Option.some m) = true ∧
          (((send_message m env.sendStatus).1 = true ∧ sent = [(m, true)] ∧
             ∃ ts, pyGet response "current_date" st.timestamp = Except.ok ts ∧
               st' = ⟨ts, Option.some m⟩) ∨
           ((send_message m env.sendStatus).1 = false ∧ sent = [(m, false)] ∧
             st' = ⟨st.timestamp, Option.some m⟩)))) := by
  simp only [cycleTry] at h
  split at h
  · cases h
  · rename_i response hfetch
    split at h
    · cases h
    · rename_i u hcheck
      split at h
      · cases h
      · rename_i homeworks hhws
        refine ⟨response, homeworks, hfetch, by cases u; exact hcheck,
          hhws, ?_⟩
        split at h
        · cases h
        · rename_i message hmsg
          split at h
          · rename_i hfalsy
            cases h
            exact Or.inl ⟨message, hmsg, by simpa using hfalsy, rfl, rfl⟩
          · rename_i htruthy
            split at h
            · rename_i hsend
              split at h
              · cases h
              · rename_i ts hts
                cases h
                cases message with
                | none => simp [optStrTruthy] at htruthy
                | some m =>
                  exact Or.inr ⟨m, hmsg, by simpa using htruthy,
                    Or.inl ⟨hsend, rfl, ts, hts, rfl⟩⟩
            · rename_i hsend
              cases h
              cases message with
              | none => simp [optStrTruthy] at htruthy
              | some m =>
                exact Or.inr ⟨m, hmsg, by simpa using htruthy,
                  Or.inr ⟨by simpa using hsend, rfl, rfl⟩⟩

theorem handleCycleError_errored (env : CycleEnv) (e : PyError)
    (stE : LoopState) (sent : List (String × Bool)) (logs : List LogEvent) :
    (handleCycleError env e stE sent logs).errored = true := by
  simp only [handleCycleError]
  split
  · split <;> rfl
  · rfl

theorem handleCycleError_timestamp (env : CycleEnv) (e : PyError)
    (stE : LoopState) (sent : List (String × Bool)) (logs : List LogEvent) :
    (handleCycleError env e stE sent logs).state.timestamp = stE.timestamp := by
  simp only [handleCycleError]
  split
  · split <;> rfl
  · rfl

theorem handleCycleError_spec (env : CycleEnv) (e : PyError)
    (stE : LoopState) (sent : List (String × Bool)) (logs : List LogEvent) :
    (stE.message = Option.some (pyErrStr e) ∧
      (handleCycleError env e stE sent logs).state = stE ∧
      (handleCycleError env e stE sent logs).sent = sent) ∨
    (stE.message ≠ Option.some (pyErrStr e) ∧
      (send_message (pyErrStr e) env.sendError).1 = true ∧
      (handleCycleError env e stE sent logs).state =
        ⟨stE.timestamp, Option.some (pyErrStr e)⟩ ∧
      (handleCycleError env e stE sent logs).sent =
        sent ++ [(pyErrStr e, true)]) ∨
    (stE.message ≠ Option.some (pyErrStr e) ∧
      (send_message (pyErrStr e) env.sendError).1 = false ∧
      (handleCycleError env e stE sent logs).state = stE ∧
      (handleCycleError env e stE sent logs).sent =
        sent ++ [(pyErrStr e, false)]) := by
  simp only [handleCycleError]
  split
  · rename_i hne
    split
    · rename_i hsend
      exact Or.inr (Or.inl ⟨hne, hsend, rfl, rfl⟩)
    · rename_i hsend
      exact Or.inr (Or.inr ⟨hne, by simpa using hsend, rfl, rfl⟩)
  · rename_i heq
    exact Or.inl ⟨by simpa using heq, rfl, rfl⟩

theorem runCycle_err (env : CycleEnv) (st stE : LoopState) (e : PyError)
    (sent : List (String × Bool)) (logs : List LogEvent)
    (h : cycleTry env st = TryOutcome.err e stE sent logs) :
    runCycle env st = handleCycleError env e stE sent logs := by
  simp [runCycle, h]

theorem runCycleE_eq_ok (env : CycleEnv) (st : LoopState) :
    runCycleE env st = Except.ok (runCycle env st) := by
  cases hc : cycleTry env st with
  | ok st' sent logs => simp [runCycleE, runCycle, hc]
  | err e stE sent logs =>
    obtain ⟨-, -, hexc⟩ := cycleTry_err_inv env st e stE sent logs hc
    simp [runCycleE, runCycle, hc, hexc]

theorem runLoopE_eq_ok (envs : List CycleEnv) :
    ∀ st, runLoopE envs st = Except.ok (runLoop envs st) := by
  induction envs with
  | nil => intro st; rfl
  | cons env rest ih =>
    intro st
    simp [runLoopE, runLoop, runCycleE_eq_ok, ih]

/-! ### Claim theorems -/

/-- Claim C5: for every homework record containing `homework_name` with a
string value `name` and `status` equal to `approved`, `reviewing`, or
`rejected`, `parse_status` returns exactly the template message with the
fixed canonical verdict phrase for that status. -/
theorem claim5_formatting (entries : List (String × PyVal)) (name : String)
    (hname : lookupEntry entries "homework_name" =
      Option.some (PyVal.str name)) :
    (lookupEntry entries "status" = Option.some (PyVal.str "approved") →
      parse_status (PyVal.dict entries) = Except.ok
        ("Изменился статус проверки работы \"" ++ name ++ "\". " ++
          "Работа проверена: ревьюеру всё понравилось. Ура!")) ∧
    (lookupEntry entries "status" = Option.some (PyVal.str "reviewing") →
      parse_status (PyVal.dict entries) = Except.ok
        ("Изменился статус проверки работы \"" ++ name ++ "\". " ++
          "Работа взята на проверку ревьюером.")) ∧
    (lookupEntry entries "status" = Option.some (PyVal.str "rejected") →
      parse_status (PyVal.dict entries) = Except.ok
        ("Изменился статус проверки работы \"" ++ name ++ "\". " ++
          "Работа проверена: у ревьюера есть замечания.")) := by
  refine ⟨fun hs => ?_, fun hs => ?_, fun hs => ?_⟩ <;>
    simp [parse_status, pyContains, pyGetItem, hs, hname, pyInVerdicts,
      pyHashable, verdictOf, HOMEWORK_VERDICTS, pyStr, List.lookup]

/-- Claim C5 witness: the `approved` template at a concrete record. -/
theorem claim5_witness :
    parse_status (PyVal.dict [("status", PyVal.str "approved"),
      ("homework_name", PyVal.str "X")]) =
      Except.ok ("Изменился статус проверки работы \"" ++ "X" ++ "\". " ++
        "Работа проверена: ревьюеру всё понравилось. Ура!") :=
  (claim5_formatting [("status", PyVal.str "approved"),
    ("homework_name", PyVal.str "X")] "X" rfl).1 rfl

/-- Claim C6 counterexample: a record whose `status` is a list (outside
the enumerated set) makes `parse_status` fail with a `TypeError`, not an
`APIResponseError`: Python's `in` on a dict raises for unhashable keys. -/
theorem claim6_counterexample :
    parse_status (PyVal.dict [("status", PyVal.list []),
      ("homework_name", PyVal.str "hw")]) =
      Except.error (PyError.typeError "unhashable type: \x27list\x27") ∧
    isAPIResponseErrorKind
      (PyError.typeError "unhashable type: \x27list\x27") = false :=
  ⟨rfl, rfl⟩

/-- Claim C6 (amended): on a homework record (a dict), `parse_status`
succeeds iff `homework_name` is present and `status` holds a string that
is one of the three verdict keys; every failure is of the
`APIResponseError` kind, except that an unhashable `status` value (a list
or a dict) fails with a `TypeError`. -/
theorem parse_status_no_status (entries : List (String × PyVal))
    (hs : lookupEntry entries "status" = Option.none) :
    parse_status (PyVal.dict entries) = Except.error
      (PyError.apiResponseError
        "Отсутствует ключ \"status\" в домашней работе") := by
  simp [parse_status, pyContains, hs]

theorem parse_status_no_name (entries : List (String × PyVal)) (v : PyVal)
    (hs : lookupEntry entries "status" = Option.some v)
    (hn : lookupEntry entries "homework_name" = Option.none) :
    parse_status (PyVal.dict entries) = Except.error
      (PyError.apiResponseError
        "Отсутствует ключ \"homework_name\" в домашней работе") := by
  simp [parse_status, pyContains, hs, hn]

theorem parse_status_unhashable (entries : List (String × PyVal))
    (v w : PyVal) (hs : lookupEntry entries "status" = Option.some v)
    (hn : lookupEntry entries "homework_name" = Option.some w)
    (hh : pyHashable v = false) :
    parse_status (PyVal.dict entries) = Except.error
      (PyError.typeError
        ("unhashable type: \x27" ++ pyTypeName v ++ "\x27")) := by
  simp [parse_status, pyContains, pyGetItem, hs, hn, pyInVerdicts, hh]

theorem parse_status_bad_status (entries : List (String × PyVal))
    (v w : PyVal) (hs : lookupEntry entries "status" = Option.some v)
    (hn : lookupEntry entries "homework_name" = Option.some w)
    (hiv : pyInVerdicts v = Except.ok false) :
    parse_status (PyVal.dict entries) = Except.error
      (PyError.apiResponseError
        ("Неожиданный статус домашней работы: " ++ pyStr v)) := by
  simp [parse_status, pyContains, pyGetItem, hs, hn, hiv]

theorem parse_status_unknown_status (entries : List (String × PyVal))
    (s : String) (w : PyVal)
    (hs : lookupEntry entries "status" = Option.some (PyVal.str s))
    (hn : lookupEntry entries "homework_name" = Option.some w)
    (hlv : HOMEWORK_VERDICTS.lookup s = Option.none) :
    parse_status (PyVal.dict entries) = Except.error
      (PyError.apiResponseError
        ("Неожиданный статус домашней работы: " ++ s)) := by
  simp [parse_status, pyContains, pyGetItem, hs, hn, pyInVerdicts,
    pyHashable, hlv, pyStr]

theorem parse_status_success (entries : List (String × PyVal)) (s : String)
    (w : PyVal) (verdict : String)
    (hs : lookupEntry entries "status" = Option.some (PyVal.str s))
    (hn : lookupEntry entries "homework_name" = Option.some w)
    (hlv : HOMEWORK_VERDICTS.lookup s = Option.some verdict) :
    parse_status (PyVal.dict entries) = Except.ok
      ("Изменился статус проверки работы \"" ++ pyStr w ++ "\". " ++
        verdict) := by
  simp [parse_status, pyContains, pyGetItem, hs, hn, pyInVerdicts,
    pyHashable, verdictOf, hlv]

theorem claim6_amended (entries : List (String × PyVal)) :
    ((∃ m, parse_status (PyVal.dict entries) = Except.ok m) ↔
      ((lookupEntry entries "homework_name").isSome ∧
        ∃ s, lookupEntry entries "status" = Option.some (PyVal.str s) ∧
          (HOMEWORK_VERDICTS.lookup s).isSome)) ∧
    (∀ e, parse_status (PyVal.dict entries) = Except.error e →
      isAPIResponseErrorKind e = true ∨
      (∃ v, lookupEntry entries "status" = Option.some v ∧
        pyHashable v = false ∧
        e = PyError.typeError
          ("unhashable type: \x27" ++ pyTypeName v ++ "\x27"))) := by
  cases hs : lookupEntry entries "status" with
  | none =>
    rw [parse_status_no_status entries hs]
    constructor
    · constructor
      · rintro ⟨m, hm⟩
        cases hm
      · rintro ⟨-, s, hs', -⟩
        cases hs'
    · intro e he
      cases he
      exact Or.inl rfl
  | some v =>
    cases hn : lookupEntry entries "homework_name" with
    | none =>
      rw [parse_status_no_name entries v hs hn]
      constructor
      · constructor
        · rintro ⟨m, hm⟩
          cases hm
        · rintro ⟨hns, -⟩
          simp at hns
      · intro e he
        cases he
        exact Or.inl rfl
    | some w =>
      cases hh : pyHashable v with
      | false =>
        rw [parse_status_unhashable entries v w hs hn hh]
        constructor
        · constructor
          · rintro ⟨m, hm⟩
            cases hm
          · rintro ⟨-, s, hs', -⟩
            cases hs'
            simp [pyHashable] at hh
        · intro e he
          cases he
          exact Or.inr ⟨v, rfl, hh, rfl⟩
      | true =>
        cases v with
        | str s =>
          cases hlv : HOMEWORK_VERDICTS.lookup s with
          | none =>
            rw [parse_status_unknown_status entries s w hs hn hlv]
            constructor
            · constructor
              · rintro ⟨m, hm⟩
                cases hm
              · rintro ⟨-, s', hs', hv'⟩
                cases hs'
                rw [hlv] at hv'
                simp at hv'
            · intro e he
              cases he
              exact Or.inl rfl
          | some verdict =>
            rw [parse_status_success entries s w verdict hs hn hlv]
            constructor
            · constructor
              · intro _
                exact ⟨rfl, s, rfl, by rw [hlv]; rfl⟩
              · intro _
                exact ⟨_, rfl⟩
            · intro e he
              cases he
        | none =>
          rw [parse_status_bad_status entries PyVal.none w hs hn rfl]
          constructor
          · constructor
            · rintro ⟨m, hm⟩
              cases hm
            · rintro ⟨-, s', hs', -⟩
              cases hs'
          · intro e he
            cases he
            exact Or.inl rfl
        | bool b =>
          rw [parse_status_bad_status entries (PyVal.bool b) w hs hn rfl]
          constructor
          · constructor
            · rintro ⟨m, hm⟩
              cases hm
            · rintro ⟨-, s', hs', -⟩
              cases hs'
          · intro e he
            cases he
            exact Or.inl rfl
        | int n =>
          rw [parse_status_bad_status entries (PyVal.int n) w hs hn rfl]
          constructor
          · constructor
            · rintro ⟨m, hm⟩
              cases hm
            · rintro ⟨-, s', hs', -⟩
              cases hs'
          · intro e he
            cases he
            exact Or.inl rfl
        | list xs => cases hh
        | dict es => cases hh

/-- Claim C6 witness for the amended claim: an unknown string status
fails with the `APIResponseError` kind. -/
theorem claim6_witness :
    isAPIResponseErrorKind (PyError.apiResponseError
      ("Неожиданный статус домашней работы: " ++ "archived")) = true ∨
    (∃ v, lookupEntry [("status", PyVal.str "archived"),
        ("homework_name", PyVal.str "X")] "status" = Option.some v ∧
      pyHashable v = false ∧
      PyError.apiResponseError
          ("Неожиданный статус домашней работы: " ++ "archived") =
        PyError.typeError ("unhashable type: \x27" ++ pyTypeName v ++
          "\x27")) :=
  (claim6_amended [("status", PyVal.str "archived"),
    ("homework_name", PyVal.str "X")]).2 _ rfl

/-- Claim C7: `check_response` succeeds exactly on a dict whose
`homeworks` value is a list (no deeper checks), and every failure is a
`TypeError`. -/
theorem claim7_validation (response : PyVal) :
    (check_response response = Except.ok () ↔
      ∃ es xs, response = PyVal.dict es ∧
        lookupEntry es "homeworks" = Option.some (PyVal.list xs)) ∧
    (∀ e, check_response response = Except.error e →
      ∃ m, e = PyError.typeError m) :=
  ⟨check_response_ok_iff response, check_response_error_kind response⟩

/-- Claim C7 witness: the empty-homeworks dict validates; a non-dict
fails with a `TypeError`. -/
theorem claim7_witness :
    check_response (PyVal.dict [("homeworks", PyVal.list [])]) =
      Except.ok () ∧
    (∃ m, PyError.typeError "Ответ API не является словарем" =
      PyError.typeError m) := by
  constructor
  · exact (claim7_validation _).1.mpr ⟨_, _, rfl, rfl⟩
  · exact (claim7_validation (PyVal.int 3)).2 _ rfl

/-- Claim C8: a network-level failure is wrapped into `APIResponseError`
with the cause text; a non-200 completion is wrapped into
`APIResponseError` with the status code; on HTTP 200 the decoded body is
returned as-is. -/
theorem claim8_fetch (ts : PyVal) :
    (∀ err, (get_api_answer ts (FetchOutcome.requestException err)).2 =
      Except.error (PyError.apiResponseError ("Ошибка запроса: " ++ err))) ∧
    (∀ code body, code ≠ 200 →
      (get_api_answer ts (FetchOutcome.completed code body)).2 =
        Except.error (PyError.apiResponseError
          ("Эндпоинт недоступен. Код ответа: " ++ toString code))) ∧
    (∀ v, (get_api_answer ts (FetchOutcome.completed 200 (Sum.inr v))).2 =
      Except.ok v) := by
  refine ⟨fun err => rfl, fun code body hcode => ?_, fun v => rfl⟩
  simp [get_api_answer, hcode]

/-- Claim C8 witness: the three behaviours at concrete outcomes. -/
theorem claim8_witness :
    (get_api_answer (PyVal.int 0)
        (FetchOutcome.requestException "boom")).2 =
      Except.error (PyError.apiResponseError ("Ошибка запроса: " ++ "boom")) ∧
    (get_api_answer (PyVal.int 0)
        (FetchOutcome.completed 404 (Sum.inr PyVal.none))).2 =
      Except.error (PyError.apiResponseError
        ("Эндпоинт недоступен. Код ответа: " ++ toString 404)) ∧
    (get_api_answer (PyVal.int 0)
        (FetchOutcome.completed 200 (Sum.inr (PyVal.dict [])))).2 =
      Except.ok (PyVal.dict []) :=
  ⟨(claim8_fetch (PyVal.int 0)).1 "boom",
    (claim8_fetch (PyVal.int 0)).2.1 404 _ (by decide),
    (claim8_fetch (PyVal.int 0)).2.2 _⟩

/-- Claim C10: a 200 response whose body fails JSON decoding raises an
error that is not of the `APIResponseError` kind (the decode happens
outside the wrapping `try`), yet it is still caught at the cycle
boundary like any other cycle error. -/
theorem claim10_json_decode (ts : PyVal) (msg : String) (env : CycleEnv)
    (st : LoopState)
    (hfetch : env.fetch = FetchOutcome.completed 200 (Sum.inl msg)) :
    (get_api_answer ts (FetchOutcome.completed 200 (Sum.inl msg))).2 =
      Except.error (PyError.jsonDecodeError msg) ∧
    isAPIResponseErrorKind (PyError.jsonDecodeError msg) = false ∧
    isExceptionSubclass (PyError.jsonDecodeError msg) = true ∧
    runCycleE env st = Except.ok (runCycle env st) ∧
    (runCycle env st).errored = true := by
  obtain ⟨f, s1, s2⟩ := env
  simp only at hfetch
  subst hfetch
  refine ⟨rfl, rfl, rfl, runCycleE_eq_ok _ _, ?_⟩
  have hr : runCycle ⟨FetchOutcome.completed 200 (Sum.inl msg), s1, s2⟩ st =
      handleCycleError ⟨FetchOutcome.completed 200 (Sum.inl msg), s1, s2⟩
        (PyError.jsonDecodeError msg) st []
        [⟨LogLevel.info, "Сервис Яндекс Практикум.Домашка работает."⟩,
         ⟨LogLevel.info, "Запрос выполнен успешно"⟩] := rfl
  rw [hr]
  exact handleCycleError_errored _ _ _ _ _

/-- Claim C10 witness: at a concrete bad-JSON outcome. -/
theorem claim10_witness :
    (get_api_answer (PyVal.int 0)
        (FetchOutcome.completed 200 (Sum.inl "Expecting value"))).2 =
      Except.error (PyError.jsonDecodeError "Expecting value") ∧
    isAPIResponseErrorKind (PyError.jsonDecodeError "Expecting value") =
      false ∧
    isExceptionSubclass (PyError.jsonDecodeError "Expecting value") = true ∧
    runCycleE ⟨FetchOutcome.completed 200 (Sum.inl "Expecting value"),
        SendOutcome.delivered, SendOutcome.delivered⟩ stBase =
      Except.ok (runCycle ⟨FetchOutcome.completed 200
        (Sum.inl "Expecting value"), SendOutcome.delivered,
        SendOutcome.delivered⟩ stBase) ∧
    (runCycle ⟨FetchOutcome.completed 200 (Sum.inl "Expecting value"),
        SendOutcome.delivered, SendOutcome.delivered⟩ stBase).errored =
      true :=
  claim10_json_decode (PyVal.int 0) "Expecting value" _ stBase rfl

theorem mainStartup_no_propagate (p t c : Option String) :
    (mainStartup p t c).2 = StartupResult.exitCode 1 ∨
    (mainStartup p t c).2 = StartupResult.enterLoop := by
  cases hck : (check_tokens p t c).2 with
  | error e =>
    have he : ∃ m, e = PyError.tokenError m := by
      simp only [check_tokens] at hck
      split at hck
      · cases hck; exact ⟨_, rfl⟩
      · cases hck
    obtain ⟨m, rfl⟩ := he
    exact Or.inl (by simp [mainStartup, hck])
  | ok b => exact Or.inr (by simp [mainStartup, hck])

/-- Claim C1: the cursor changes value only when a formatted status
message was delivered in the cycle, in which case it becomes the result
of `response.get("current_date", timestamp)` (so it stays unchanged when
`current_date` is absent); after an error cycle the cursor is unchanged,
and after an `try`-completing cycle it is unchanged unless the first
homework's formatted message was delivered. -/
theorem claim1_cursor_law (env : CycleEnv) (st : LoopState) :
    ((runCycle env st).errored = true →
      (runCycle env st).state.timestamp = st.timestamp) ∧
    (∀ st' sent logs, cycleTry env st = TryOutcome.ok st' sent logs →
      st'.timestamp = st.timestamp ∨
      (∃ response homeworks hw m,
        (get_api_answer st.timestamp env.fetch).2 = Except.ok response ∧
        pyGetItem response "homeworks" = Except.ok homeworks ∧
        pyTruthy homeworks = true ∧
        pyIndex homeworks 0 = Except.ok hw ∧
        parse_status hw = Except.ok m ∧
        sent = [(m, true)] ∧
        pyGet response "current_date" st.timestamp =
          Except.ok st'.timestamp)) := by
  constructor
  · intro herr
    cases hc : cycleTry env st with
    | ok st' sent logs => simp [runCycle, hc] at herr
    | err e stE sent logs =>
      obtain ⟨hstE, -, -⟩ := cycleTry_err_inv env st e stE sent logs hc
      subst hstE
      simp [runCycle, hc, handleCycleError_timestamp]
  · intro st' sent logs hok
    obtain ⟨response, homeworks, hfetch, hcheck, hhws, hcase⟩ :=
      cycleTry_ok_inv env st st' sent logs hok
    rcases hcase with ⟨msg, hmsg, hfalsy, hst', hsent⟩ |
      ⟨m, hmsg, htruthy, hdel | hfail⟩
    · subst hst'
      exact Or.inl rfl
    · obtain ⟨hsend, hsent, ts, hts, hst'⟩ := hdel
      obtain ⟨htr, hw, hidx, hparse⟩ :=
        extractMessage_some_inv homeworks m hmsg
      subst hst'
      exact Or.inr ⟨response, homeworks, hw, m, hfetch, hhws, htr, hidx,
        hparse, hsent, hts⟩
    · obtain ⟨hsend, hsent, hst'⟩ := hfail
      subst hst'
      exact Or.inl rfl

/-- Claim C1 witness: unchanged cursor after an error cycle; advanced
cursor (to `current_date` 1000) after a delivered status cycle. -/
theorem claim1_witness :
    (runCycle envNetFail stBase).state.timestamp = stBase.timestamp ∧
    (stAfterDeliver.timestamp = stBase.timestamp ∨
      (∃ response homeworks hw m,
        (get_api_answer stBase.timestamp envDeliver.fetch).2 =
          Except.ok response ∧
        pyGetItem response "homeworks" = Except.ok homeworks ∧
        pyTruthy homeworks = true ∧
        pyIndex homeworks 0 = Except.ok hw ∧
        parse_status hw = Except.ok m ∧
        [(msgHW1, true)] = [(m, true)] ∧
        pyGet response "current_date" stBase.timestamp =
          Except.ok stAfterDeliver.timestamp)) := by
  constructor
  · exact (claim1_cursor_law envNetFail stBase).1 rfl
  · exact (claim1_cursor_law envDeliver stBase).2 stAfterDeliver
      [(msgHW1, true)] logsDeliver rfl

/-- Claim C2: if two consecutive cycles both raise errors with identical
text and the first cycle's error notification was delivered, then the
first cycle made exactly that one send attempt and the second cycle makes
none (dedup on the last delivered error text). -/
theorem claim2_error_dedup (env1 env2 : CycleEnv) (st : LoopState)
    (e1 : PyError) (st1 : LoopState) (sent1 : List (String × Bool))
    (logs1 : List LogEvent)
    (h1 : cycleTry env1 st = TryOutcome.err e1 st1 sent1 logs1)
    (e2 : PyError) (st2 : LoopState) (sent2 : List (String × Bool))
    (logs2 : List LogEvent)
    (h2 : cycleTry env2 (runCycle env1 st).state =
      TryOutcome.err e2 st2 sent2 logs2)
    (heq : pyErrStr e2 = pyErrStr e1)
    (hdel : (pyErrStr e1, true) ∈ (runCycle env1 st).sent) :
    (runCycle env1 st).sent = [(pyErrStr e1, true)] ∧
    (runCycle env2 (runCycle env1 st).state).sent = [] := by
  obtain ⟨hst1, hsent1, -⟩ := cycleTry_err_inv env1 st e1 st1 sent1 logs1 h1
  rw [hst1, hsent1] at h1
  have hr1 : runCycle env1 st = handleCycleError env1 e1 st [] logs1 :=
    runCycle_err env1 st st e1 [] logs1 h1
  rcases handleCycleError_spec env1 e1 st [] logs1 with
    ⟨hmsg, hstate, hsent⟩ | ⟨hne, hok, hstate, hsent⟩ |
    ⟨hne, hfail, hstate, hsent⟩
  · rw [hr1, hsent] at hdel
    simp at hdel
  · have hmem : (runCycle env1 st).state.message =
        Option.some (pyErrStr e1) := by rw [hr1, hstate]
    refine ⟨by rw [hr1, hsent]; rfl, ?_⟩
    obtain ⟨hst2, hsent2, -⟩ :=
      cycleTry_err_inv env2 ((runCycle env1 st).state) e2 st2 sent2 logs2 h2
    rw [hst2, hsent2] at h2
    have hr2 : runCycle env2 (runCycle env1 st).state =
        handleCycleError env2 e2 (runCycle env1 st).state [] logs2 :=
      runCycle_err env2 ((runCycle env1 st).state)
        ((runCycle env1 st).state) e2 [] logs2 h2
    rcases handleCycleError_spec env2 e2 (runCycle env1 st).state [] logs2
      with ⟨hmsg2, hstate2, hsent2'⟩ | ⟨hne2, -, -, -⟩ | ⟨hne2, -, -, -⟩
    · rw [hr2, hsent2']
    · exact absurd (by rw [hmem, heq]) hne2
    · exact absurd (by rw [hmem, heq]) hne2
  · rw [hr1, hsent] at hdel
    simp at hdel

/-- Claim C2 witness: the same network failure in two consecutive cycles;
the first cycle delivers the error text, the second is suppressed. -/
theorem claim2_witness :
    (runCycle envNetFail stBase).sent =
      [("Ошибка запроса: " ++ "boom", true)] ∧
    (runCycle envNetFail (runCycle envNetFail stBase).state).sent = [] := by
  exact claim2_error_dedup envNetFail envNetFail stBase
    (PyError.apiResponseError ("Ошибка запроса: " ++ "boom")) stBase [] []
    rfl
    (PyError.apiResponseError ("Ошибка запроса: " ++ "boom"))
    (runCycle envNetFail stBase).state [] [] rfl rfl
    (by
      have h : (runCycle envNetFail stBase).sent =
          [("Ошибка запроса: " ++ "boom", true)] := rfl
      rw [h]
      exact List.mem_singleton.mpr rfl)

/-- Claim C3 counterexample: a cycle that completes without error on an
empty homework list resets the shared last-message variable from the
previously delivered error text "boom" to `None`, so the record is
changed by an event other than delivery of a new distinct error. -/
theorem claim3_counterexample :
    (runCycle envEmptyResp stAfterBoom).errored = false ∧
    (runCycle envEmptyResp stAfterBoom).sent = [] ∧
    stAfterBoom.message = Option.some "boom" ∧
    (runCycle envEmptyResp stAfterBoom).state.message = Option.none :=
  ⟨rfl, rfl, rfl, rfl⟩

/-- Claim C3 (amended): on an error cycle the shared last-message record
changes only when a new distinct error text is delivered (becoming that
text); but a cycle whose `try` block completes overwrites the record as
well: it becomes `None` on an empty homework list and the formatted
status text when a record was formatted, regardless of delivery. -/
theorem claim3_amended (env : CycleEnv) (st : LoopState) :
    (∀ e stE sent logs, cycleTry env st = TryOutcome.err e stE sent logs →
      (runCycle env st).state.message = st.message ∨
      ((runCycle env st).state.message = Option.some (pyErrStr e) ∧
        (pyErrStr e, true) ∈ (runCycle env st).sent ∧
        st.message ≠ Option.some (pyErrStr e))) ∧
    (∀ st' sent logs, cycleTry env st = TryOutcome.ok st' sent logs →
      (st'.message = Option.none ∧ sent = []) ∨
      (∃ response homeworks hw m,
        (get_api_answer st.timestamp env.fetch).2 = Except.ok response ∧
        pyGetItem response "homeworks" = Except.ok homeworks ∧
        pyIndex homeworks 0 = Except.ok hw ∧
        parse_status hw = Except.ok m ∧
        st'.message = Option.some m)) := by
  constructor
  · intro e stE sent logs herr
    obtain ⟨hstE, hsent, -⟩ := cycleTry_err_inv env st e stE sent logs herr
    rw [hstE, hsent] at herr
    have hr : runCycle env st = handleCycleError env e st [] logs :=
      runCycle_err env st st e [] logs herr
    rcases handleCycleError_spec env e st [] logs with
      ⟨hmsg, hstate, -⟩ | ⟨hne, -, hstate, hsent'⟩ | ⟨hne, -, hstate, -⟩
    · exact Or.inl (by rw [hr, hstate])
    · refine Or.inr ⟨by rw [hr, hstate], ?_, hne⟩
      rw [hr, hsent']
      simp
    · exact Or.inl (by rw [hr, hstate])
  · intro st' sent logs hok
    obtain ⟨response, homeworks, hfetch, hcheck, hhws, hcase⟩ :=
      cycleTry_ok_inv env st st' sent logs hok
    rcases hcase with ⟨msg, hmsg, hfalsy, hst', hsent⟩ |
      ⟨m, hmsg, htruthy, hdel | hfail⟩
    · cases msg with
      | none =>
        subst hst'
        exact Or.inl ⟨rfl, hsent⟩
      | some m =>
        obtain ⟨-, hw, hidx, hparse⟩ :=
          extractMessage_some_inv homeworks m hmsg
        subst hst'
        exact Or.inr ⟨response, homeworks, hw, m, hfetch, hhws, hidx,
          hparse, rfl⟩
    · obtain ⟨-, -, ts, -, hst'⟩ := hdel
      obtain ⟨-, hw, hidx, hparse⟩ := extractMessage_some_inv homeworks m hmsg
      subst hst'
      exact Or.inr ⟨response, homeworks, hw, m, hfetch, hhws, hidx,
        hparse, rfl⟩
    · obtain ⟨-, -, hst'⟩ := hfail
      obtain ⟨-, hw, hidx, hparse⟩ := extractMessage_some_inv homeworks m hmsg
      subst hst'
      exact Or.inr ⟨response, homeworks, hw, m, hfetch, hhws, hidx,
        hparse, rfl⟩

/-- Claim C3 (amended) witness: the empty-list cycle resets the record to
`None`; an error cycle from a fresh state records the delivered error. -/
theorem claim3_witness :
    ((⟨PyVal.int 500, Option.none⟩ : LoopState).message = Option.none ∧
      ([] : List (String × Bool)) = []) ∨
    (∃ response homeworks hw m,
      (get_api_answer stAfterBoom.timestamp envEmptyResp.fetch).2 =
        Except.ok response ∧
      pyGetItem response "homeworks" = Except.ok homeworks ∧
      pyIndex homeworks 0 = Except.ok hw ∧
      parse_status hw = Except.ok m ∧
      (⟨PyVal.int 500, Option.none⟩ : LoopState).message =
        Option.some m) := by
  exact (claim3_amended envEmptyResp stAfterBoom).2
    ⟨PyVal.int 500, Option.none⟩ []
    [⟨LogLevel.info, "Сервис Яндекс Практикум.Домашка работает."⟩,
     ⟨LogLevel.info, "Запрос выполнен успешно"⟩,
     ⟨LogLevel.debug, "Новых статусов нет"⟩] rfl

/-- Claim C4: every error raised inside the cycle's `try` block is caught
by the `except Exception` boundary (the faithful-exception run always
yields the total run's result, for one cycle and for any iterated run),
and startup either exits with code 1 or enters the loop — no other error
escapes. -/
theorem claim4_no_escape :
    (∀ env st, runCycleE env st = Except.ok (runCycle env st)) ∧
    (∀ envs st, runLoopE envs st = Except.ok (runLoop envs st)) ∧
    (∀ p t c, (mainStartup p t c).2 = StartupResult.exitCode 1 ∨
      (mainStartup p t c).2 = StartupResult.enterLoop) :=
  ⟨runCycleE_eq_ok, fun envs st => runLoopE_eq_ok envs st,
    mainStartup_no_propagate⟩

/-- Claim C9: whenever any of the three credentials is unset or empty,
startup emits a critical log line and the process exits with code 1 (the
loop is not entered); when all three are non-empty, the token check
passes and the loop is entered. -/
theorem claim9_startup (p t c : Option String) :
    (¬ (optStrTruthy p = true ∧ optStrTruthy t = true ∧
        optStrTruthy c = true) →
      (mainStartup p t c).2 = StartupResult.exitCode 1 ∧
      ∃ m, LogEvent.mk LogLevel.critical m ∈ (mainStartup p t c).1) ∧
    ((optStrTruthy p = true ∧ optStrTruthy t = true ∧
        optStrTruthy c = true) →
      (mainStartup p t c).2 = StartupResult.enterLoop ∧
      (check_tokens p t c).2 = Except.ok true) := by
  constructor
  · intro hmiss
    cases hp : optStrTruthy p <;> cases ht : optStrTruthy t <;>
      cases hc : optStrTruthy c <;>
      simp_all [mainStartup, check_tokens]
  · rintro ⟨hp, ht, hc⟩
    simp [mainStartup, check_tokens, hp, ht, hc]

/-- Claim C9 witness: a concrete missing credential exits with code 1 and
logs critically; all three present enters the loop. -/
theorem claim9_witness :
    ((mainStartup Option.none (Option.some "T") (Option.some "C")).2 =
        StartupResult.exitCode 1 ∧
      ∃ m, LogEvent.mk LogLevel.critical m ∈
        (mainStartup Option.none (Option.some "T") (Option.some "C")).1) ∧
    ((mainStartup (Option.some "P") (Option.some "T")
        (Option.some "C")).2 = StartupResult.enterLoop ∧
      (check_tokens (Option.some "P") (Option.some "T")
        (Option.some "C")).2 = Except.ok true) := by
  constructor
  · exact (claim9_startup Option.none (Option.some "T")
      (Option.some "C")).1 (by simp [optStrTruthy])
  · exact (claim9_startup (Option.some "P") (Option.some "T")
      (Option.some "C")).2 ⟨rfl, rfl, rfl⟩

end HomeworkBot
